import Mathlib

/-!
Verification of `scripts/generate_slide.py` (luckyapi-slides).

Shallow embedding: the pure computations of the script (string parsing,
grid-layout arithmetic, label sanitization, quality-verdict parsing) are
translated into executable Lean functions; the effectful parts (network
calls, the file system) are modelled by explicit oracles threaded through
a step-by-step translation of the control flow.  Python `int` values that
are always non-negative here are modelled as `Nat` (Python `int(x)` on a
non-negative quotient is floor division, i.e. `Nat.div`).  Python string
methods are modelled over ASCII inputs: `str.strip()` strips the ASCII
whitespace characters, `str.upper()` maps ASCII letters to upper case.
-/

/-- The ASCII whitespace characters stripped by Python `str.strip()`
(space, tab, newline, carriage return, vertical tab, form feed). -/
def isPySpace (c : Char) : Bool :=
  c = ' ' || c = '\x09' || c = '\x0a' || c = '\x0d' || c = '\x0b' || c = '\x0c'

/-- Strip characters satisfying `p` from both ends of a character list,
as Python `str.strip` does. -/
def stripEnds (p : Char → Bool) (l : List Char) : List Char :=
  ((l.dropWhile p).reverse.dropWhile p).reverse

/-- Python `text.strip()` (no argument): strip whitespace from both ends. -/
def pyStrip (s : String) : String :=
  String.mk (stripEnds isPySpace s.data)

/-- Python `text.strip(": ")`: strip any of `:` and space from both ends. -/
def stripColonSpace (s : String) : String :=
  String.mk (stripEnds (fun c => c = ':' || c = ' ') s.data)

/-- `_sanitize_label` (generate_slide.py, lines 199-208): if no CJK-capable
font is available, keep only characters with `ord(ch) < 128`, strip
whitespace, and fall back to the original text when that leaves nothing. -/
def sanitizeLabel (text : String) (cjkSupported : Bool) : String :=
  if cjkSupported then text
  else
    let clean := String.mk (text.data.filter (fun c => c.toNat < 128))
    let cleanStripped := pyStrip clean
    if cleanStripped = "" then text else cleanStripped

/-- `_resize_image` (lines 40-51) on pixel dimensions: images whose longest
side is at most `maxSize` are returned unchanged; otherwise the longest side
becomes `maxSize` and the other is scaled with floor rounding
(`int(h * max_size / w)`). -/
def resizeImage (w h maxSize : Nat) : Nat × Nat :=
  if max w h ≤ maxSize then (w, h)
  else if h ≤ w then (maxSize, h * maxSize / w)
  else (w * maxSize / h, maxSize)

/-- Outcome of the quality-check POST in `_quality_check` (lines 264-284):
either a response with a status code and the extracted message content
(the content defaults to the empty string when the JSON fields are
missing), or an exception carrying its message. -/
inductive QCNet where
  | resp (status : Nat) (text : String)
  | exn (msg : String)
deriving DecidableEq, Repr

/-- ASCII upper-casing of a character code, as Python `str.upper()` acts on
ASCII letters (the script's probe tokens PASS/FAIL are ASCII). -/
def upperCode (n : Nat) : Nat :=
  if 97 ≤ n ∧ n ≤ 122 then n - 32 else n

/-- `text.upper().startswith(pat)` for an ASCII upper-case pattern `pat`:
compare the upper-cased character codes of `text` against `pat`. -/
def upperStartsWith : List Char → List Char → Bool
  | [], _ => true
  | _ :: _, [] => false
  | p :: ps, c :: cs => decide (upperCode c.toNat = p.toNat) && upperStartsWith ps cs

/-- `_quality_check` (lines 264-284), result `(passed, reason)`:
a non-200 status is fail-open with reason "check unavailable"; on 200 the
stripped reply is matched by case-insensitive prefix: a reply whose
upper-casing starts with PASS passes, one starting with FAIL fails with
reason `text[5:].strip(": ")`, anything else passes with the reply as
reason; an exception is fail-open with the exception text as reason. -/
def qualityCheck : QCNet → Bool × String
  | .resp status text =>
    if status ≠ 200 then (true, "check unavailable")
    else
      let t := stripEnds isPySpace text.data
      if upperStartsWith ('P' :: 'A' :: 'S' :: 'S' :: []) t then (true, String.mk t)
      else if upperStartsWith ('F' :: 'A' :: 'I' :: 'L' :: []) t then
        (false, String.mk (stripEnds (fun c => c = ':' || c = ' ') (t.drop 5)))
      else (true, String.mk t)
  | .exn msg => (true, msg)

example : sanitizeLabel "日本語" false = "日本語" := by decide
example : sanitizeLabel "abc 日本" false = "abc" := by decide
example : qualityCheck (.resp 200 "PASS") = (true, "PASS") := by decide
example : qualityCheck (.resp 200 "FAIL: bad hands") = (false, "bad hands") := by decide
example : qualityCheck (.resp 200 "Failure") = (false, "re") := by decide
example : qualityCheck (.resp 500 "x") = (true, "check unavailable") := by decide
example : qualityCheck (.exn "boom") = (true, "boom") := by decide
example : resizeImage 100 50 256 = (100, 50) := by decide
example : resizeImage 1024 512 256 = (256, 128) := by decide

/-!
Locator extraction (lines 417-427 of `generate_slide` and the identical
code in `_refine_image`, lines 329-334).  The two Python regexes

  pattern 1:  `!\[.*?\]\((https?://[^\s\)]+)\)`          (case-sensitive)
  pattern 2:  `(https?://\S+\.(?:png|jpg|jpeg|webp|gif))` (IGNORECASE)

are modelled by hand with Python `re.search` semantics: the match at the
leftmost start position wins; at a position, a lazy `.*?` tries the
shortest extension first (and `.` does not cross a newline), a greedy
class run tries the longest first, an optional `s?` is tried before its
absence, and an alternation is tried left to right. -/

/-- Match a literal pattern at the head of a list, case-insensitively when
`ci` is true (ASCII case folding, as the regexes only use ASCII letters);
returns the consumed characters (original case) and the remainder. -/
def matchLit (ci : Bool) : List Char → List Char → Option (List Char × List Char)
  | [], s => some ([], s)
  | _ :: _, [] => none
  | p :: ps, c :: cs =>
    if (if ci then upperCode c.toNat = upperCode p.toNat else c = p) then
      match matchLit ci ps cs with
      | some (con, rest) => some (c :: con, rest)
      | none => none
    else none

/-- Match `https?://` at the head: the optional greedy `s?` branch is tried
first, then the branch without `s`, as the regex engine backtracks. -/
def matchScheme (ci : Bool) (s : List Char) : Option (List Char × List Char) :=
  match matchLit ci ('h' :: 't' :: 't' :: 'p' :: []) s with
  | none => none
  | some (c1, r1) =>
    match matchLit ci ('s' :: ':' :: '/' :: '/' :: []) r1 with
    | some (c2, r2) => some (c1 ++ c2, r2)
    | none =>
      match matchLit ci (':' :: '/' :: '/' :: []) r1 with
      | some (c2, r2) => some (c1 ++ c2, r2)
      | none => none

/-- Try to finish pattern 1 at the current point of the lazy scan:
match literal `](`, then the captured group `https?://[^\s\)]+`, then `)`.
The greedy class run cannot usefully backtrack (shortening it leaves a
class character, never `)`), so the maximal run must be followed by `)`. -/
def tryCloseMd (s : List Char) : Option (List Char) :=
  match matchLit false (']' :: '(' :: []) s with
  | none => none
  | some (_, r1) =>
    match matchScheme false r1 with
    | none => none
    | some (sc, r2) =>
      let run := r2.takeWhile (fun c => !(isPySpace c) && c ≠ ')')
      let rest := r2.drop run.length
      if run.isEmpty then none
      else
        match rest with
        | ')' :: _ => some (sc ++ run)
        | _ => none

/-- The lazy `.*?` scan of pattern 1 after `![`: try to close at the
current point first, else consume one character (which, being matched by
`.`, must not be a newline) and continue. -/
def mdAfterBracket : List Char → Option (List Char)
  | [] => none
  | c :: cs =>
    match tryCloseMd (c :: cs) with
    | some g => some g
    | none => if c = '\n' then none else mdAfterBracket cs

/-- `re.search` for pattern 1: scan start positions left to right; a
position must begin with `![`. -/
def findMd : List Char → Option (List Char)
  | [] => none
  | '!' :: '[' :: rest =>
    (match mdAfterBracket rest with
     | some g => some g
     | none => findMd ('[' :: rest))
  | _ :: cs => findMd cs

/-- The alternation `(?:png|jpg|jpeg|webp|gif)` in source order. -/
def extAlternatives : List (List Char) :=
  ('p' :: 'n' :: 'g' :: []) :: ('j' :: 'p' :: 'g' :: []) ::
    ('j' :: 'p' :: 'e' :: 'g' :: []) :: ('w' :: 'e' :: 'b' :: 'p' :: []) ::
    ('g' :: 'i' :: 'f' :: []) :: []

/-- Try the extension alternatives left to right (case-insensitively),
returning the consumed characters of the first that matches. -/
def tryExtList : List (List Char) → List Char → Option (List Char)
  | [], _ => none
  | e :: es, s =>
    match matchLit true e s with
    | some (con, _) => some con
    | none => tryExtList es s

/-- Backtracking for `\S*\.(?:…)` after the first mandatory `\S` character:
prefer putting the head character inside the greedy run (a longer run, i.e.
a later dot) and only when no later split works treat a `.` here as the
literal dot followed by an extension. -/
def splitAtDot : List Char → Option (List Char)
  | [] => none
  | c :: cs =>
    if isPySpace c then none
    else
      match splitAtDot cs with
      | some tail => some (c :: tail)
      | none =>
        if c = '.' then
          match tryExtList extAlternatives cs with
          | some con => some ('.' :: con)
          | none => none
        else none

/-- The tail `\S+\.(?:png|jpg|jpeg|webp|gif)` of pattern 2: the run needs
at least one character before the dot. -/
def p2Tail : List Char → Option (List Char)
  | [] => none
  | c :: cs =>
    if isPySpace c then none
    else
      match splitAtDot cs with
      | some tail => some (c :: tail)
      | none => none

/-- Pattern 2 anchored at the current position: `https?://` then the
dot-extension tail. -/
def p2At (s : List Char) : Option (List Char) :=
  match matchScheme true s with
  | none => none
  | some (sc, rest) =>
    match p2Tail rest with
    | none => none
    | some t => some (sc ++ t)

/-- `re.search` for pattern 2: scan start positions left to right. -/
def findBareUrl : List Char → Option (List Char)
  | [] => none
  | c :: cs =>
    match p2At (c :: cs) with
    | some g => some g
    | none => findBareUrl cs

/-- The locator extraction of `generate_slide` (lines 417-427): the
markdown pattern is tried first over the whole reply; only when it has no
match anywhere is the bare-URL pattern tried. -/
def extractLocator (content : String) : Option String :=
  match findMd content.data with
  | some g => some (String.mk g)
  | none => (findBareUrl content.data).map String.mk

example : extractLocator "![x](http://host/a.png) other text" = some "http://host/a.png" := by decide
example : extractLocator "https://host/b.jpg" = some "https://host/b.jpg" := by decide
example : extractLocator "see https://host/b.jpg now" = some "https://host/b.jpg" := by decide
example : extractLocator "no image here" = none := by decide
example : extractLocator "x http://h/a.pngx" = some "http://h/a.png" := by decide
example : extractLocator "https://early.jpg ![y](http://late/c.png)" = some "http://late/c.png" := by decide
example : extractLocator "a HTTPS://H/B.JPEG b" = some "HTTPS://H/B.JPEG" := by decide

/-!
`_concatenate_reference_images` (lines 69-156) and `_draw_label`
(lines 211-227).  Pixel data is abstracted to image dimensions; the
geometry of the composition (grid layout, cell coordinates, resized image
sizes, paste positions, the label strip) is translated faithfully.  The
file system is a list of `(path, width, height)` triples for the image
files that exist and open; paths not in the list are the silently dropped
missing files.
-/

/-- `_draw_label` geometry (lines 211-227): the text is sanitized, a dark
strip `(40,40,40)` is drawn from `offset_x` to `offset_x + cell_width`
with height `text_height + 6`, and the text is centered horizontally.
`tw`/`th` are the text's bounding-box width and height for the chosen
font (font metrics are an input of the model). -/
structure LabelDraw where
  stripX0 : Nat
  stripY0 : Nat
  stripX1 : Nat
  stripY1 : Nat
  fill : Nat × Nat × Nat
  text : String
  textX : Nat
  textY : Nat
deriving DecidableEq, Repr

def drawLabel (labelText : String) (cellWidth : Nat) (cjkSupported : Bool)
    (tw th offX offY : Nat) : LabelDraw :=
  let t := sanitizeLabel labelText cjkSupported
  ⟨offX, offY, offX + cellWidth, offY + (th + 6), (40, 40, 40), t,
    offX + (cellWidth - tw) / 2, offY + 3⟩

/-- One image resolved by the existence scan of
`_concatenate_reference_images` (lines 88-100): its pixel dimensions and
the label paired with it (labels are indexed by the position in the
original path list). -/
structure SrcImage where
  w : Nat
  h : Nat
  label : Option String
deriving DecidableEq, Repr

/-- The existence scan (lines 88-100): drop paths that do not exist; a
kept image at original index `i` gets `labels[i]` when `labels` is truthy
(non-`None` and non-empty) and long enough, else no label. -/
def resolveImages (fs : List (String × Nat × Nat)) (labels : Option (List String)) :
    List String → Nat → List SrcImage
  | [], _ => []
  | p :: ps, i =>
    match (fs.filter (fun e => e.1 = p)).head? with
    | none => resolveImages fs labels ps (i + 1)
    | some (_, w, h) =>
      ⟨w, h, (labels.getD []).get? i⟩ :: resolveImages fs labels ps (i + 1)

/-- A cell of the grid composition: the cell's top-left corner, the paste
position of the (resized) image inside it, the resized image dimensions,
and the cell's label. -/
structure GridCell where
  cellX : Nat
  cellY : Nat
  pasteX : Nat
  pasteY : Nat
  imgW : Nat
  imgH : Nat
  label : Option String
deriving DecidableEq, Repr

/-- The composed reference sheet: `empty` when no listed file exists
(the function returns `None`), a single resized labeled image when exactly
one survives, and the grid otherwise. -/
inductive RefSheet where
  | empty
  | single (outW outH : Nat) (label : Option String)
  | grid (cols rows canvasW canvasH : Nat) (cells : List GridCell)
deriving DecidableEq, Repr

/-- The composition of `_concatenate_reference_images` (lines 102-156)
over resolved images: one image is resized to the cell size and returned
with no grid; for `n ≥ 2` images, 24 pixels are reserved for the label at
the top of each cell, `cols = min(n, max_cols)`,
`rows = (n + cols - 1) // cols`, the canvas is `cols*cell × rows*cell`,
and image `i` goes to cell `(i % cols, i // cols)`, resized to fit the
`cell_size - 24` image area and centered in it. -/
def composeSheet (imgs : List SrcImage) (cellSize maxCols : Nat) : RefSheet :=
  match imgs with
  | [] => .empty
  | ⟨w, h, lab⟩ :: [] =>
    .single (resizeImage w h cellSize).1 (resizeImage w h cellSize).2 lab
  | _ =>
    let labelH := 24
    let imgArea := cellSize - labelH
    let n := imgs.length
    let cols := min n maxCols
    let rows := (n + cols - 1) / cols
    .grid cols rows (cols * cellSize) (rows * cellSize)
      (imgs.enum.map (fun e =>
        let i := e.1
        let cellX := (i % cols) * cellSize
        let cellY := (i / cols) * cellSize
        let rw := (resizeImage e.2.w e.2.h imgArea).1
        let rh := (resizeImage e.2.w e.2.h imgArea).2
        ⟨cellX, cellY, cellX + (cellSize - rw) / 2,
          cellY + labelH + (imgArea - rh) / 2, rw, rh, e.2.label⟩))

/-- `_concatenate_reference_images` end to end: resolve the paths against
the file system, then compose.  `cell_size=256` and `max_cols=3` are the
defaults used by every caller. -/
def concatenateReferenceImages (fs : List (String × Nat × Nat))
    (paths : List String) (labels : Option (List String)) : RefSheet :=
  composeSheet (resolveImages fs labels paths 0) 256 3

example :
    composeSheet (⟨600, 400, some "a"⟩ :: ⟨100, 50, none⟩ :: []) 256 3 =
      .grid 2 1 512 256
        (⟨0, 0, 12, 63, 232, 154, some "a"⟩ :: ⟨256, 0, 334, 115, 100, 50, none⟩ :: []) := by
  decide

example :
    concatenateReferenceImages (("a.png", 100, 50) :: []) ("missing.png" :: "a.png" :: [])
      (some ("la" :: "lb" :: [])) = .single 100 50 (some "lb") := by decide

/-!
The retry loop of `generate_slide` (lines 404-474), `_refine_image`
(lines 287-349) and the quality/refine loop (lines 443-461).  Network
effects are oracles: for each attempt index the oracle gives the outcome
of the generation POST and (when consulted) of the image GET; for each
quality round it gives the quality-check response and the refinement
round's POST/GET outcomes.  Downloaded payloads are byte lists; the only
persistent state is the byte content written to the output path.
-/

/-- Outcome of `requests.post` for a generation request: a 200 reply with
the extracted message content string, a non-200 status, a timeout
(`requests.exceptions.Timeout`, backoff 5s), or another exception
(backoff 3s). -/
inductive PostResult where
  | ok (content : String)
  | httpError (status : Nat)
  | timeout
  | exn (msg : String)
deriving DecidableEq, Repr

/-- Outcome of `requests.get` on the extracted locator: a reply with a
status code and payload bytes, a timeout, or another exception. -/
inductive GetResult where
  | resp (status : Nat) (body : List Nat)
  | timeout
  | exn (msg : String)
deriving DecidableEq, Repr

/-- The network outcomes one iteration of the retry loop can observe. -/
structure AttemptNet where
  post : PostResult
  get : GetResult
deriving Repr

/-- The network outcomes of one `_refine_image` call. -/
structure RefineNet where
  post : PostResult
  get : GetResult
deriving Repr

/-- `_refine_image` (lines 287-349): POST the refinement request; on a 200
reply extract a locator with the same two patterns; GET it; only a 200
download strictly larger than 1000 bytes is written to the output path and
reported as success.  Every failure (including exceptions, which the
function catches itself) returns `none` and writes nothing.  The second
component counts the network calls issued. -/
def refineImage (net : RefineNet) : Option (List Nat) × Nat :=
  match net.post with
  | .ok content =>
    match extractLocator content with
    | none => (none, 1)
    | some _ =>
      match net.get with
      | .resp status body =>
        if status = 200 ∧ 1000 < body.length then (some body, 2) else (none, 2)
      | .timeout => (none, 2)
      | .exn _ => (none, 2)
  | .httpError _ => (none, 1)
  | .timeout => (none, 1)
  | .exn _ => (none, 1)

/-- The network outcomes of one round of the quality loop: the
quality-check response and, if a refinement is attempted, its outcomes. -/
structure QCRound where
  qc : QCNet
  refineNet : RefineNet

/-- Result of the quality/refine loop: the final bytes at the output path,
the number of quality evaluations, the number of refinement attempts, and
the number of network calls issued. -/
structure QCOut where
  file : List Nat
  evals : Nat
  refines : Nat
  calls : Nat
deriving DecidableEq, Repr

/-- The quality/refine loop (lines 443-461): up to `max_refine` rounds
(the first argument is the remaining round budget, the second the round
index feeding the oracle).  A passing check breaks out; a failing check
triggers one `_refine_image` call; a failed refinement breaks out keeping
the current artifact; a successful one overwrites the artifact in place
and the loop continues.  An exhausted budget falls into the for-else
branch, keeping the artifact. -/
def qcLoop (oracle : Nat → QCRound) : Nat → Nat → List Nat → QCOut
  | 0, _, file => ⟨file, 0, 0, 0⟩
  | rem + 1, idx, file =>
    let r := oracle idx
    if (qualityCheck r.qc).1 then ⟨file, 1, 0, 1⟩
    else
      match refineImage r.refineNet with
      | (some newBytes, c) =>
        let rest := qcLoop oracle rem (idx + 1) newBytes
        ⟨rest.file, rest.evals + 1, rest.refines + 1, rest.calls + 1 + c⟩
      | (none, c) => ⟨file, 1, 1, 1 + c⟩

/-- What one retry-loop iteration (lines 405-431) produces from its
network outcomes: `some body` exactly when the POST returned 200, a
locator was extracted from the reply, and the GET on it returned 200 with
a payload of more than 1000 bytes (that payload is written to the output
path); `none` on every failure class — non-200 status, timeout or
exception on either call, missing locator, undersized payload — which
all fall through to the next attempt. -/
def attemptBody (a : AttemptNet) : Option (List Nat) :=
  match a.post with
  | .ok content =>
    match extractLocator content with
    | none => none
    | some _ =>
      match a.get with
      | .resp status body =>
        if status = 200 ∧ 1000 < body.length then some body else none
      | .timeout => none
      | .exn _ => none
  | .httpError _ => none
  | .timeout => none
  | .exn _ => none

/-- An iteration fails when it produces no valid download. -/
def attemptFails (a : AttemptNet) : Bool :=
  (attemptBody a).isNone

/-- Network calls issued by one failing retry-loop iteration: one POST,
plus one GET when a locator was extracted. -/
def attemptCalls (a : AttemptNet) : Nat :=
  match a.post with
  | .ok content =>
    match extractLocator content with
    | none => 1
    | some _ => 2
  | .httpError _ => 1
  | .timeout => 1
  | .exn _ => 1

/-- Result of the retry loop: the returned boolean, the number of
generation attempts issued (loop iterations entered), the number of
network calls issued, and the bytes last written to the output path
(`none` when nothing was ever written). -/
structure LoopOut where
  success : Bool
  attempts : Nat
  calls : Nat
  written : Option (List Nat)
deriving DecidableEq, Repr

/-- The retry loop of `generate_slide` (lines 404-474): for each attempt,
POST the request; on non-200, timeout, exception or a reply without a
locator, sleep and try again; on a downloaded payload of more than 1000
bytes at status 200, write it to the output path, run the quality loop if
enabled, and return `True`; a failed download falls through to the next
attempt.  When the budget (first numeric argument) is exhausted the loop
ends and the function returns `False`. -/
def genLoop (oracle : Nat → AttemptNet) (qcEnabled : Bool) (maxRefine : Nat)
    (qcOracle : Nat → QCRound) : Nat → Nat → LoopOut
  | 0, _ => ⟨false, 0, 0, none⟩
  | fuel + 1, idx =>
    match attemptBody (oracle idx) with
    | some body =>
      if qcEnabled then
        let q := qcLoop qcOracle maxRefine 0 body
        ⟨true, 1, 2 + q.calls, some q.file⟩
      else ⟨true, 1, 2, some body⟩
    | none =>
      let r := genLoop oracle qcEnabled maxRefine qcOracle fuel (idx + 1)
      ⟨r.success, r.attempts + 1, r.calls + attemptCalls (oracle idx), r.written⟩

/-- Python truthiness of an optional string: `None` and the empty string
are falsy. -/
def pyTruthy : Option String → Bool
  | none => false
  | some s => !s.isEmpty

/-- Python `a or b` on optional strings (`api_key or os.getenv(...)`). -/
def pyOrElse (a b : Option String) : Option String :=
  if pyTruthy a then a else b

/-- The non-network inputs of a `generate_slide` call: the state of the
output path, the key argument and the `ANTHROPIC_AUTH_TOKEN` environment
variable, the reference image list (`None` and `[]` behave identically),
whether Pillow is importable, and the quality-check flag. -/
structure GenInput where
  outputExists : Bool
  outputSize : Nat
  apiKey : Option String
  envToken : Option String
  refImages : List String
  pilAvailable : Bool
  qualityCheck : Bool
deriving Repr

/-- The exception message of `_concatenate_reference_images` when Pillow
is missing (lines 83-86), raised before the retry loop (line 383) and not
caught by `generate_slide`. -/
def pillowErrMsg : String :=
  "Pillow required for --reference-images. Install: pip install Pillow"

/-- `generate_slide` (lines 352-474).  In order: the skip check (line 363,
strictly more than 1000 bytes), the credential check (lines 367-370),
the reference-sheet build (lines 382-394, which raises `RuntimeError`
past the caller when reference images are requested and Pillow is
unavailable — modelled as `.error`; existing listed files are assumed to
open), then the retry loop.  `os.makedirs` and the file writes are
assumed not to raise. -/
def generateSlide (inp : GenInput) (retries maxRefine : Nat)
    (oracle : Nat → AttemptNet) (qcOracle : Nat → QCRound) :
    Except String LoopOut :=
  if inp.outputExists = true ∧ 1000 < inp.outputSize then .ok ⟨true, 0, 0, none⟩
  else if pyTruthy (pyOrElse inp.apiKey inp.envToken) = false then
    .ok ⟨false, 0, 0, none⟩
  else if inp.refImages ≠ [] ∧ inp.pilAvailable = false then .error pillowErrMsg
  else .ok (genLoop oracle inp.qualityCheck maxRefine qcOracle retries 1)

example :
    generateSlide ⟨true, 5000, none, none, [], true, false⟩ 3 2
      (fun _ => ⟨.timeout, .timeout⟩) (fun _ => ⟨.exn "x", ⟨.timeout, .timeout⟩⟩) =
      .ok ⟨true, 0, 0, none⟩ := by rfl

example :
    generateSlide ⟨true, 1000, none, none, [], true, false⟩ 3 2
      (fun _ => ⟨.timeout, .timeout⟩) (fun _ => ⟨.exn "x", ⟨.timeout, .timeout⟩⟩) =
      .ok ⟨false, 0, 0, none⟩ := by rfl

example :
    generateSlide ⟨false, 0, some "k", none, "r.png" :: [], false, false⟩ 3 2
      (fun _ => ⟨.timeout, .timeout⟩) (fun _ => ⟨.exn "x", ⟨.timeout, .timeout⟩⟩) =
      .error pillowErrMsg := by rfl

example :
    generateSlide ⟨false, 0, some "k", none, [], true, false⟩ 3 2
      (fun _ => ⟨.httpError 500, .timeout⟩) (fun _ => ⟨.exn "x", ⟨.timeout, .timeout⟩⟩) =
      .ok ⟨false, 3, 3, none⟩ := by rfl

/-! Helper lemmas. -/

/-- Both dimensions produced by `_resize_image` are bounded by the target
size. -/
theorem resizeImage_le (w h m : Nat) :
    (resizeImage w h m).1 ≤ m ∧ (resizeImage w h m).2 ≤ m := by
  unfold resizeImage
  split_ifs with h1 h2
  · rw [max_le_iff] at h1
    exact ⟨h1.1, h1.2⟩
  · have hw : 0 < w := by
      rcases Nat.eq_zero_or_pos w with hw0 | hw0
      · exfalso
        apply h1
        have : h = 0 := le_antisymm (hw0 ▸ h2) (Nat.zero_le h)
        simp [hw0, this]
      · exact hw0
    refine ⟨le_rfl, ?_⟩
    calc h * m / w ≤ w * m / w := Nat.div_le_div_right (Nat.mul_le_mul_right m h2)
    _ = m := Nat.mul_div_cancel_left m hw
  · have h2' : w ≤ h := le_of_not_le h2
    have hh : 0 < h := by
      rcases Nat.eq_zero_or_pos h with hh0 | hh0
      · exfalso
        apply h1
        have : w = 0 := le_antisymm (hh0 ▸ h2') (Nat.zero_le w)
        simp [hh0, this]
      · exact hh0
    refine ⟨?_, le_rfl⟩
    calc w * m / h ≤ h * m / h := Nat.div_le_div_right (Nat.mul_le_mul_right m h2')
    _ = m := Nat.mul_div_cancel_left m hh

/-- The longest side after `_resize_image` is the minimum of the original
longest side and the target size. -/
theorem resizeImage_longest (w h m : Nat) :
    max (resizeImage w h m).1 (resizeImage w h m).2 = min (max w h) m := by
  have hle := resizeImage_le w h m
  unfold resizeImage at hle ⊢
  split_ifs at hle ⊢ with h1 h2
  · exact (min_eq_left h1).symm
  · have h1' : m ≤ max w h := le_of_lt (lt_of_not_le h1)
    simp only [max_eq_left hle.2, min_eq_right h1']
  · have h1' : m ≤ max w h := le_of_lt (lt_of_not_le h1)
    simp only [max_eq_right hle.1, min_eq_right h1']

/-- A failing iteration of the retry loop passes the outcome of the
remaining attempts through, adding one attempt and its network calls. -/
theorem genLoop_fail_succ (oracle : Nat → AttemptNet) (qcE : Bool) (mr : Nat)
    (qcO : Nat → QCRound) (fuel idx : Nat)
    (hfi : attemptFails (oracle idx) = true) :
    genLoop oracle qcE mr qcO (fuel + 1) idx =
      ⟨(genLoop oracle qcE mr qcO fuel (idx + 1)).success,
       (genLoop oracle qcE mr qcO fuel (idx + 1)).attempts + 1,
       (genLoop oracle qcE mr qcO fuel (idx + 1)).calls + attemptCalls (oracle idx),
       (genLoop oracle qcE mr qcO fuel (idx + 1)).written⟩ := by
  have hnone : attemptBody (oracle idx) = none := by
    unfold attemptFails at hfi
    exact Option.isNone_iff_eq_none.mp hfi
  simp only [genLoop, hnone]

/-- When every attempt fails, the retry loop uses its whole budget, never
writes and reports failure. -/
theorem genLoop_allFail (oracle : Nat → AttemptNet) (qcE : Bool) (mr : Nat)
    (qcO : Nat → QCRound) (hf : ∀ i, attemptFails (oracle i) = true) :
    ∀ fuel idx, (genLoop oracle qcE mr qcO fuel idx).success = false ∧
      (genLoop oracle qcE mr qcO fuel idx).attempts = fuel ∧
      (genLoop oracle qcE mr qcO fuel idx).written = none := by
  intro fuel
  induction fuel with
  | zero => exact fun idx => ⟨rfl, rfl, rfl⟩
  | succ n ih =>
    intro idx
    rw [genLoop_fail_succ oracle qcE mr qcO n idx (hf idx)]
    exact ⟨(ih (idx + 1)).1, by rw [(ih (idx + 1)).2.1], (ih (idx + 1)).2.2⟩

/-- Unfolding of the quality/refine loop when every check fails and every
refinement succeeds: the whole round budget is used, each round is one
evaluation and one refinement, and the final artifact is the last
refinement's bytes. -/
theorem qcLoop_allFail_aux (qcOracle : Nat → QCRound) (w : Nat → List Nat)
    (hfail : ∀ i, (qualityCheck (qcOracle i).qc).1 = false)
    (href : ∀ i, (refineImage (qcOracle i).refineNet).1 = some (w i)) :
    ∀ rem idx file, (qcLoop qcOracle rem idx file).evals = rem ∧
      (qcLoop qcOracle rem idx file).refines = rem ∧
      (qcLoop qcOracle rem idx file).file =
        (if rem = 0 then file else w (idx + rem - 1)) := by
  intro rem
  induction rem with
  | zero => exact fun idx file => ⟨rfl, rfl, rfl⟩
  | succ n ih =>
    intro idx file
    have hpair : refineImage (qcOracle idx).refineNet =
        (some (w idx), (refineImage (qcOracle idx).refineNet).2) := by
      rw [← href idx]
    unfold qcLoop
    rw [if_neg (by rw [hfail idx]; simp), hpair]
    refine ⟨?_, ?_, ?_⟩
    · simp only [(ih (idx + 1) (w idx)).1]
    · simp only [(ih (idx + 1) (w idx)).2.1]
    · simp only [(ih (idx + 1) (w idx)).2.2]
      cases n with
      | zero => simp
      | succ k =>
        simp only [Nat.succ_ne_zero, if_false]
        congr 1
        omega

/-! Claim theorems. -/

/-- C1: when the destination holds no valid artifact, credentials are
present and the reference-sheet build does not raise, and every attempt
the network permits ends in a transport, parse or download failure,
`generate_slide` returns `False` after issuing exactly `retries`
generation attempts. -/
theorem generate_slide_retry_exhaustion
    (inp : GenInput) (retries maxRefine : Nat)
    (oracle : Nat → AttemptNet) (qcOracle : Nat → QCRound)
    (hdest : ¬(inp.outputExists = true ∧ 1000 < inp.outputSize))
    (hkey : pyTruthy (pyOrElse inp.apiKey inp.envToken) = true)
    (hbuild : inp.refImages = [] ∨ inp.pilAvailable = true)
    (hfail : ∀ i, attemptFails (oracle i) = true) :
    ∃ c, generateSlide inp retries maxRefine oracle qcOracle =
      .ok ⟨false, retries, c, none⟩ := by
  have h3 : ¬(inp.refImages ≠ [] ∧ inp.pilAvailable = false) := by
    rcases hbuild with h | h
    · exact fun hc => hc.1 h
    · intro hc
      rw [h] at hc
      simp at hc
  unfold generateSlide
  rw [if_neg hdest, if_neg (by rw [hkey]; simp), if_neg h3]
  obtain ⟨h1, h2, h4⟩ :=
    genLoop_allFail oracle inp.qualityCheck maxRefine qcOracle hfail retries 1
  refine ⟨(genLoop oracle inp.qualityCheck maxRefine qcOracle retries 1).calls, ?_⟩
  rcases hgl : genLoop oracle inp.qualityCheck maxRefine qcOracle retries 1 with ⟨a, b, c, d⟩
  rw [hgl] at h1 h2 h4
  simp only at h1 h2 h4
  rw [h1, h2, h4]

/-- C1 witness: two attempts, both ending in an HTTP 500, yield failure
after exactly two attempts. -/
theorem generate_slide_retry_exhaustion_witness :
    ∃ c, generateSlide ⟨false, 0, some "k", none, [], true, false⟩ 2 2
      (fun _ => ⟨.httpError 500, .timeout⟩)
      (fun _ => ⟨.exn "e", ⟨.timeout, .timeout⟩⟩) =
      .ok ⟨false, 2, c, none⟩ :=
  generate_slide_retry_exhaustion ⟨false, 0, some "k", none, [], true, false⟩ 2 2
    (fun _ => ⟨.httpError 500, .timeout⟩)
    (fun _ => ⟨.exn "e", ⟨.timeout, .timeout⟩⟩)
    (by simp) rfl (Or.inl rfl) (fun _ => rfl)

/-- C2 counterexample: a destination file of exactly 1000 bytes — which is
at least 1000 bytes — is not skipped: with credentials present the loop
runs (three network calls here) and the call returns `False`, against the
claim's promised `True` with zero network calls. -/
theorem generate_slide_skip_at_least_1000_counterexample :
    1000 ≤ 1000 ∧
    generateSlide ⟨true, 1000, some "k", none, [], true, false⟩ 3 2
      (fun _ => ⟨.httpError 500, .timeout⟩)
      (fun _ => ⟨.exn "e", ⟨.timeout, .timeout⟩⟩) =
      .ok ⟨false, 3, 3, none⟩ :=
  ⟨le_rfl, rfl⟩

/-- C2 amended: the skip check is strict — when the destination exists
with strictly more than 1000 bytes, `generate_slide` returns `True` with
zero network calls. -/
theorem generate_slide_skip_existing
    (inp : GenInput) (retries maxRefine : Nat)
    (oracle : Nat → AttemptNet) (qcOracle : Nat → QCRound)
    (hex : inp.outputExists = true) (hsz : 1000 < inp.outputSize) :
    generateSlide inp retries maxRefine oracle qcOracle = .ok ⟨true, 0, 0, none⟩ := by
  unfold generateSlide
  rw [if_pos ⟨hex, hsz⟩]

/-- C2 witness: an existing 1001-byte destination short-circuits. -/
theorem generate_slide_skip_existing_witness :
    generateSlide ⟨true, 1001, none, none, [], false, true⟩ 3 2
      (fun _ => ⟨.timeout, .timeout⟩)
      (fun _ => ⟨.exn "e", ⟨.timeout, .timeout⟩⟩) = .ok ⟨true, 0, 0, none⟩ :=
  generate_slide_skip_existing ⟨true, 1001, none, none, [], false, true⟩ 3 2
    (fun _ => ⟨.timeout, .timeout⟩)
    (fun _ => ⟨.exn "e", ⟨.timeout, .timeout⟩⟩) rfl (by norm_num)

/-- C3 counterexample: with reference images requested, Pillow missing, a
valid key and no valid artifact on disk, `generate_slide` propagates the
`RuntimeError` of `_concatenate_reference_images` (raised at line 383,
outside the try of the retry loop) instead of returning a boolean. -/
theorem generate_slide_pillow_raise_counterexample :
    generateSlide ⟨false, 0, some "k", none, "ref.png" :: [], false, false⟩ 3 2
      (fun _ => ⟨.timeout, .timeout⟩)
      (fun _ => ⟨.exn "e", ⟨.timeout, .timeout⟩⟩) = .error pillowErrMsg := rfl

/-- C3 amended: whenever the pre-loop reference-sheet build cannot raise
(no reference images requested, or Pillow available), `generate_slide`
returns a boolean; failures inside the retry loop never escape. -/
theorem generate_slide_returns_boolean
    (inp : GenInput) (retries maxRefine : Nat)
    (oracle : Nat → AttemptNet) (qcOracle : Nat → QCRound)
    (hbuild : inp.refImages = [] ∨ inp.pilAvailable = true) :
    ∃ out, generateSlide inp retries maxRefine oracle qcOracle = .ok out := by
  unfold generateSlide
  split_ifs with h1 h2 h3
  · exact ⟨_, rfl⟩
  · exact ⟨_, rfl⟩
  · exfalso
    rcases hbuild with h | h
    · exact h3.1 h
    · rw [h] at h3
      simp at h3
  · exact ⟨_, rfl⟩

/-- C3 witness: a call without reference images returns a boolean outcome
whatever the network does. -/
theorem generate_slide_returns_boolean_witness :
    ∃ out, generateSlide ⟨false, 0, some "k", none, [], false, false⟩ 1 2
      (fun _ => ⟨.exn "boom", .timeout⟩)
      (fun _ => ⟨.exn "e", ⟨.timeout, .timeout⟩⟩) = .ok out :=
  generate_slide_returns_boolean ⟨false, 0, some "k", none, [], false, false⟩ 1 2
    (fun _ => ⟨.exn "boom", .timeout⟩)
    (fun _ => ⟨.exn "e", ⟨.timeout, .timeout⟩⟩) (Or.inl rfl)

/-- C10: the already-valid-output check precedes credential validation —
a destination with more than 1000 bytes returns `True` whatever the key
state; and the missing-credential failure (returning `False` with zero
attempts, i.e. no retry) happens only when the destination holds no valid
artifact. -/
theorem generate_slide_skip_precedes_credentials
    (inp : GenInput) (retries maxRefine : Nat)
    (oracle : Nat → AttemptNet) (qcOracle : Nat → QCRound) :
    (inp.outputExists = true → 1000 < inp.outputSize →
      generateSlide inp retries maxRefine oracle qcOracle = .ok ⟨true, 0, 0, none⟩) ∧
    (¬(inp.outputExists = true ∧ 1000 < inp.outputSize) →
      pyTruthy (pyOrElse inp.apiKey inp.envToken) = false →
      generateSlide inp retries maxRefine oracle qcOracle = .ok ⟨false, 0, 0, none⟩) := by
  constructor
  · intro hex hsz
    unfold generateSlide
    rw [if_pos ⟨hex, hsz⟩]
  · intro hdest hkey
    unfold generateSlide
    rw [if_neg hdest, if_pos hkey]

/-- C10 witness: a 4096-byte artifact returns `True` with no key anywhere;
an undersized artifact with an empty-string environment token is the
credential failure, `False` with zero attempts. -/
theorem generate_slide_skip_precedes_credentials_witness :
    generateSlide ⟨true, 4096, none, none, [], false, true⟩ 3 2
      (fun _ => ⟨.timeout, .timeout⟩)
      (fun _ => ⟨.exn "e", ⟨.timeout, .timeout⟩⟩) = .ok ⟨true, 0, 0, none⟩ ∧
    generateSlide ⟨true, 500, none, some "", [], true, false⟩ 3 2
      (fun _ => ⟨.timeout, .timeout⟩)
      (fun _ => ⟨.exn "e", ⟨.timeout, .timeout⟩⟩) = .ok ⟨false, 0, 0, none⟩ :=
  ⟨(generate_slide_skip_precedes_credentials ⟨true, 4096, none, none, [], false, true⟩ 3 2
      (fun _ => ⟨.timeout, .timeout⟩)
      (fun _ => ⟨.exn "e", ⟨.timeout, .timeout⟩⟩)).1 rfl (by norm_num),
   (generate_slide_skip_precedes_credentials ⟨true, 500, none, some "", [], true, false⟩ 3 2
      (fun _ => ⟨.timeout, .timeout⟩)
      (fun _ => ⟨.exn "e", ⟨.timeout, .timeout⟩⟩)).2 (by simp) rfl⟩

/-- C4: with a gate that fails every evaluation and refinement downloads
that succeed, the quality loop runs exactly `max_refine` evaluate/refine
rounds, the artifact ends as the bytes of the last successful refinement
(never deleted), and a round whose refinement fails leaves the output
bytes unchanged. -/
theorem quality_refine_loop_bound
    (qcOracle o2 : Nat → QCRound) (w : Nat → List Nat)
    (maxRefine rem idx : Nat) (file0 f2 : List Nat)
    (hfail : ∀ i, (qualityCheck (qcOracle i).qc).1 = false)
    (href : ∀ i, (refineImage (qcOracle i).refineNet).1 = some (w i))
    (hq2 : (qualityCheck (o2 idx).qc).1 = false)
    (hr2 : (refineImage (o2 idx).refineNet).1 = none) :
    (qcLoop qcOracle maxRefine 0 file0).evals = maxRefine ∧
    (qcLoop qcOracle maxRefine 0 file0).refines = maxRefine ∧
    (qcLoop qcOracle maxRefine 0 file0).file =
      (if maxRefine = 0 then file0 else w (maxRefine - 1)) ∧
    (qcLoop o2 (rem + 1) idx f2).file = f2 := by
  obtain ⟨h1, h2, h3⟩ := qcLoop_allFail_aux qcOracle w hfail href maxRefine 0 file0
  refine ⟨h1, h2, ?_, ?_⟩
  · rw [h3]
    cases maxRefine <;> simp
  · have hpair : refineImage (o2 idx).refineNet =
        (none, (refineImage (o2 idx).refineNet).2) := by
      rw [← hr2]
    unfold qcLoop
    rw [if_neg (by rw [hq2]; simp), hpair]

set_option maxRecDepth 40000 in
/-- C4 witness: two rounds with a failing gate and successful refinement
downloads, plus one round with a failing refinement. -/
theorem quality_refine_loop_bound_witness :
    (qcLoop (fun _ => ⟨.resp 200 "FAIL: bad", ⟨.ok "![i](http://h/i.png)",
        .resp 200 (List.replicate 1001 7)⟩⟩) 2 0 (1 :: [])).evals = 2 ∧
    (qcLoop (fun _ => ⟨.resp 200 "FAIL: bad", ⟨.ok "![i](http://h/i.png)",
        .resp 200 (List.replicate 1001 7)⟩⟩) 2 0 (1 :: [])).refines = 2 ∧
    (qcLoop (fun _ => ⟨.resp 200 "FAIL: bad", ⟨.ok "![i](http://h/i.png)",
        .resp 200 (List.replicate 1001 7)⟩⟩) 2 0 (1 :: [])).file =
      (if 2 = 0 then (1 :: []) else List.replicate 1001 7) ∧
    (qcLoop (fun _ => ⟨.resp 200 "FAIL: bad", ⟨.timeout, .timeout⟩⟩) (0 + 1) 0
      (2 :: [])).file = (2 :: []) :=
  quality_refine_loop_bound
    (fun _ => ⟨.resp 200 "FAIL: bad", ⟨.ok "![i](http://h/i.png)",
      .resp 200 (List.replicate 1001 7)⟩⟩)
    (fun _ => ⟨.resp 200 "FAIL: bad", ⟨.timeout, .timeout⟩⟩)
    (fun _ => List.replicate 1001 7) 2 0 0 (1 :: []) (2 :: [])
    (fun _ => rfl) (fun _ => rfl) rfl rfl

/-- C5 counterexample: the reply "Failure" — whose first token is neither
exactly PASS nor `FAIL: reason` — yields passed=false (the code matches
the case-insensitive prefix FAIL), and an exception during evaluation
records the exception's own message, not "check unavailable". -/
theorem quality_check_prefix_counterexample :
    (qualityCheck (.resp 200 "Failure")).1 = false ∧
    qualityCheck (.exn "boom") = (true, "boom") := by decide

/-- A stripped reply starting (case-insensitively) with PASS cannot also
start with FAIL. -/
theorem upperStartsWith_pass_not_fail (t : List Char)
    (h : upperStartsWith ('P' :: 'A' :: 'S' :: 'S' :: []) t = true) :
    upperStartsWith ('F' :: 'A' :: 'I' :: 'L' :: []) t = false := by
  cases t with
  | nil => simp [upperStartsWith] at h
  | cons c cs =>
    simp only [upperStartsWith, Bool.and_eq_true, decide_eq_true_eq] at h
    simp only [upperStartsWith]
    rw [h.1]
    have hne : ¬(('P'.toNat : Nat) = 'F'.toNat) := by decide
    rw [decide_eq_false hne, Bool.false_and]

/-- C5 amended: the gate matches case-insensitive prefixes of the stripped
reply, not exact first tokens: passed=false exactly when the status is 200
and the upper-cased stripped reply starts with FAIL, in which case the
reason is `text[5:].strip(": ")`; every other 200 reply passes; a non-200
status passes with reason "check unavailable"; an exception passes with
the exception's own message as reason. -/
theorem quality_check_fail_open (status : Nat) (text msg : String) :
    ((qualityCheck (.resp status text)).1 = false ↔
      status = 200 ∧
        upperStartsWith ('F' :: 'A' :: 'I' :: 'L' :: [])
          (stripEnds isPySpace text.data) = true) ∧
    (status ≠ 200 → qualityCheck (.resp status text) = (true, "check unavailable")) ∧
    (status = 200 →
      upperStartsWith ('F' :: 'A' :: 'I' :: 'L' :: [])
        (stripEnds isPySpace text.data) = true →
      (qualityCheck (.resp status text)).2 =
        String.mk (stripEnds (fun c => c = ':' || c = ' ')
          ((stripEnds isPySpace text.data).drop 5))) ∧
    qualityCheck (.exn msg) = (true, msg) := by
  by_cases hs : status = 200
  · subst hs
    by_cases hf : upperStartsWith ('F' :: 'A' :: 'I' :: 'L' :: [])
        (stripEnds isPySpace text.data) = true
    · by_cases hp : upperStartsWith ('P' :: 'A' :: 'S' :: 'S' :: [])
          (stripEnds isPySpace text.data) = true
      · rw [upperStartsWith_pass_not_fail _ hp] at hf
        cases hf
      · have hq : qualityCheck (.resp 200 text) =
            (false, String.mk (stripEnds (fun c => c = ':' || c = ' ')
              ((stripEnds isPySpace text.data).drop 5))) := by
          simp only [qualityCheck]
          rw [if_neg (by simp), if_neg hp, if_pos hf]
        refine ⟨?_, fun hne => absurd rfl hne, fun _ _ => by rw [hq], rfl⟩
        rw [hq]
        simp [hf]
    · have hq1 : (qualityCheck (.resp 200 text)).1 = true := by
        simp only [qualityCheck]
        rw [if_neg (by simp)]
        by_cases hp : upperStartsWith ('P' :: 'A' :: 'S' :: 'S' :: [])
            (stripEnds isPySpace text.data) = true
        · rw [if_pos hp]
        · rw [if_neg hp, if_neg hf]
      refine ⟨?_, fun hne => absurd rfl hne, fun _ hf2 => absurd hf2 hf, rfl⟩
      rw [hq1]
      simp [hf]
  · have hq : qualityCheck (.resp status text) = (true, "check unavailable") := by
      simp only [qualityCheck]
      rw [if_pos hs]
    refine ⟨?_, fun _ => hq, fun heq => absurd heq hs, rfl⟩
    rw [hq]
    simp [hs]

/-- C5 witness: a 503 status is fail-open with reason "check unavailable";
the lower-case reply "fail: no" fails with the parsed reason. -/
theorem quality_check_fail_open_witness :
    qualityCheck (.resp 503 "PASS") = (true, "check unavailable") ∧
    (qualityCheck (.resp 200 "fail: no")).2 =
      String.mk (stripEnds (fun c => c = ':' || c = ' ')
        ((stripEnds isPySpace ("fail: no").data).drop 5)) :=
  ⟨(quality_check_fail_open 503 "PASS" "m").2.1 (by norm_num),
   (quality_check_fail_open 200 "fail: no" "m").2.2.1 rfl (by decide)⟩

/-- C6: for `n ≥ 2` resolved reference images (and a cell size of at
least the 24-pixel label strip, below which the Python code crashes in
PIL before composing anything), the sheet is a grid with
columns = min(n,3), rows = ⌈n / columns⌉, canvas exactly
columns*cell × rows*cell, one cell per image, and every image body pasted
below the 24-pixel label strip of its cell and inside the cell. -/
theorem reference_grid_layout (imgs : List SrcImage) (cell : Nat)
    (h2 : 2 ≤ imgs.length) (h24 : 24 ≤ cell) :
    ∃ cells, composeSheet imgs cell 3 =
      .grid (min imgs.length 3) (imgs.length ⌈/⌉ min imgs.length 3)
        (min imgs.length 3 * cell) ((imgs.length ⌈/⌉ min imgs.length 3) * cell)
        cells ∧
      cells.length = imgs.length ∧
      ∀ c ∈ cells, c.cellY + 24 ≤ c.pasteY ∧ c.cellX ≤ c.pasteX ∧
        c.pasteX + c.imgW ≤ c.cellX + cell ∧ c.pasteY + c.imgH ≤ c.cellY + cell := by
  rcases imgs with _ | ⟨a, _ | ⟨b, t⟩⟩
  · simp at h2
  · simp at h2
  · refine ⟨_, rfl, ?_, ?_⟩
    · simp [List.enum_length]
    · intro c hc
      rw [List.mem_map] at hc
      obtain ⟨⟨i, img⟩, _, hceq⟩ := hc
      subst hceq
      have hb := resizeImage_le img.w img.h (cell - 24)
      simp only
      omega

/-- C6 witness: two images, cell size 256. -/
theorem reference_grid_layout_witness :
    ∃ cells, composeSheet (⟨600, 400, some "a"⟩ :: ⟨100, 50, none⟩ :: []) 256 3 =
      .grid (min 2 3) (2 ⌈/⌉ min 2 3) (min 2 3 * 256) ((2 ⌈/⌉ min 2 3) * 256) cells ∧
      cells.length = 2 ∧
      ∀ c ∈ cells, c.cellY + 24 ≤ c.pasteY ∧ c.cellX ≤ c.pasteX ∧
        c.pasteX + c.imgW ≤ c.cellX + 256 ∧ c.pasteY + c.imgH ≤ c.cellY + 256 :=
  reference_grid_layout (⟨600, 400, some "a"⟩ :: ⟨100, 50, none⟩ :: []) 256
    (by norm_num) (by norm_num)

/-- C7 counterexample: a single 100×50 reference image with cell size 256
is returned at its original size — its longest side is 100, not the cell
size — because `_resize_image` leaves images within the target size
unchanged. -/
theorem single_reference_resize_counterexample :
    composeSheet (⟨100, 50, none⟩ :: []) 256 3 = .single 100 50 none ∧
    ¬(max 100 50 = 256) := ⟨rfl, by norm_num⟩

/-- C7 amended: a single resolved image builds no grid; it is passed
through `_resize_image`, so its longest side becomes
min(original longest side, cell) — equal to the cell size exactly when
the original was at least that large — and its label, when drawn, is a
dark `(40,40,40)` strip spanning the full image width at the top with
horizontally centered text. -/
theorem single_reference_no_grid (w h : Nat) (lab : Option String) (cell : Nat) :
    composeSheet (⟨w, h, lab⟩ :: []) cell 3 =
      .single (resizeImage w h cell).1 (resizeImage w h cell).2 lab ∧
    max (resizeImage w h cell).1 (resizeImage w h cell).2 = min (max w h) cell ∧
    (cell ≤ max w h →
      max (resizeImage w h cell).1 (resizeImage w h cell).2 = cell) ∧
    (∀ labelText cjk tw th,
      (drawLabel labelText (resizeImage w h cell).1 cjk tw th 0 0).stripX0 = 0 ∧
      (drawLabel labelText (resizeImage w h cell).1 cjk tw th 0 0).stripY0 = 0 ∧
      (drawLabel labelText (resizeImage w h cell).1 cjk tw th 0 0).stripX1 =
        (resizeImage w h cell).1 ∧
      (drawLabel labelText (resizeImage w h cell).1 cjk tw th 0 0).fill =
        (40, 40, 40) ∧
      (drawLabel labelText (resizeImage w h cell).1 cjk tw th 0 0).textX =
        ((resizeImage w h cell).1 - tw) / 2) := by
  refine ⟨rfl, resizeImage_longest w h cell, ?_, ?_⟩
  · intro hc
    rw [resizeImage_longest w h cell, min_eq_right hc]
  · intro labelText cjk tw th
    exact ⟨rfl, rfl, by simp [drawLabel], rfl, by simp [drawLabel]⟩

/-- C7 witness: a 1024×512 image with cell 256 is scaled so its longest
side is exactly 256, with no grid. -/
theorem single_reference_no_grid_witness :
    composeSheet (⟨1024, 512, some "L"⟩ :: []) 256 3 =
      .single (resizeImage 1024 512 256).1 (resizeImage 1024 512 256).2
        (some "L") ∧
    max (resizeImage 1024 512 256).1 (resizeImage 1024 512 256).2 = 256 :=
  ⟨(single_reference_no_grid 1024 512 (some "L") 256).1,
   (single_reference_no_grid 1024 512 (some "L") 256).2.2.1 (by norm_num)⟩

/-- C8: the two extraction strategies are ordered — the markdown pattern
anywhere in the reply beats the bare-URL pattern; on the claim's two probe
replies the extracted locators are exact; and a reply with no locator
makes the retry loop fall through to the next attempt (one POST, no
error), not fail the call. -/
theorem locator_extraction_ordered_strategies :
    extractLocator "![x](http://host/a.png) other text" = some "http://host/a.png" ∧
    extractLocator "https://host/b.jpg" = some "https://host/b.jpg" ∧
    (∀ content g, findMd content.data = some g →
      extractLocator content = some (String.mk g)) ∧
    (∀ content, findMd content.data = none →
      extractLocator content = (findBareUrl content.data).map String.mk) ∧
    (∀ (oracle : Nat → AttemptNet) (qcE : Bool) (mr : Nat)
        (qcO : Nat → QCRound) (fuel idx : Nat) (content : String),
      (oracle idx).post = .ok content → extractLocator content = none →
      genLoop oracle qcE mr qcO (fuel + 1) idx =
        ⟨(genLoop oracle qcE mr qcO fuel (idx + 1)).success,
         (genLoop oracle qcE mr qcO fuel (idx + 1)).attempts + 1,
         (genLoop oracle qcE mr qcO fuel (idx + 1)).calls + 1,
         (genLoop oracle qcE mr qcO fuel (idx + 1)).written⟩) := by
  refine ⟨by decide, by decide, ?_, ?_, ?_⟩
  · intro content g hmd
    unfold extractLocator
    rw [hmd]
  · intro content hmd
    unfold extractLocator
    rw [hmd]
  · intro oracle qcE mr qcO fuel idx content hpost hloc
    have hb : attemptBody (oracle idx) = none := by
      simp [attemptBody, hpost, hloc]
    have hc : attemptCalls (oracle idx) = 1 := by
      simp [attemptCalls, hpost, hloc]
    simp only [genLoop, hb, hc]

/-- C8 witness: the markdown locator wins over a later bare URL; a reply
with no URL at all retries. -/
theorem locator_extraction_ordered_strategies_witness :
    extractLocator "![a](http://h/p.png) see https://h/q.jpg" = some "http://h/p.png" ∧
    extractLocator "plain words" = (findBareUrl ("plain words").data).map String.mk ∧
    genLoop (fun _ => ⟨.ok "no picture", .timeout⟩) false 2
      (fun _ => ⟨.exn "e", ⟨.timeout, .timeout⟩⟩) (0 + 1) 5 =
      ⟨(genLoop (fun _ => ⟨.ok "no picture", .timeout⟩) false 2
          (fun _ => ⟨.exn "e", ⟨.timeout, .timeout⟩⟩) 0 (5 + 1)).success,
       (genLoop (fun _ => ⟨.ok "no picture", .timeout⟩) false 2
          (fun _ => ⟨.exn "e", ⟨.timeout, .timeout⟩⟩) 0 (5 + 1)).attempts + 1,
       (genLoop (fun _ => ⟨.ok "no picture", .timeout⟩) false 2
          (fun _ => ⟨.exn "e", ⟨.timeout, .timeout⟩⟩) 0 (5 + 1)).calls + 1,
       (genLoop (fun _ => ⟨.ok "no picture", .timeout⟩) false 2
          (fun _ => ⟨.exn "e", ⟨.timeout, .timeout⟩⟩) 0 (5 + 1)).written⟩ :=
  ⟨locator_extraction_ordered_strategies.2.2.1
      "![a](http://h/p.png) see https://h/q.jpg" ("http://h/p.png").data (by decide),
   locator_extraction_ordered_strategies.2.2.2.1 "plain words" (by decide),
   locator_extraction_ordered_strategies.2.2.2.2
      (fun _ => ⟨.ok "no picture", .timeout⟩) false 2
      (fun _ => ⟨.exn "e", ⟨.timeout, .timeout⟩⟩) 0 5 "no picture" rfl (by decide)⟩

/-- C9: with no CJK-capable font, a label whose characters are all outside
the 7-bit range is returned unchanged (stripping would empty it); with a
CJK-capable font every label is returned unchanged. -/
theorem sanitize_label_fallback (text : String) :
    ((∀ c ∈ text.data, 128 ≤ c.toNat) → sanitizeLabel text false = text) ∧
    sanitizeLabel text true = text := by
  constructor
  · intro hall
    unfold sanitizeLabel
    have hfilter : text.data.filter (fun c => decide (c.toNat < 128)) = [] := by
      rw [List.filter_eq_nil_iff]
      intro a ha
      have := hall a ha
      simp only [decide_eq_true_eq]
      omega
    simp [hfilter, pyStrip, stripEnds]
  · rfl

/-- C9 witness: an all-CJK label survives sanitization without a CJK
font. -/
theorem sanitize_label_fallback_witness :
    sanitizeLabel "日本語" false = "日本語" ∧ sanitizeLabel "日本語" true = "日本語" :=
  ⟨(sanitize_label_fallback "日本語").1 (by decide),
   (sanitize_label_fallback "日本語").2⟩
